import Mathlib

/-!
Shallow embedding of the EchoVault desktop-shell layer
(src/app/src-tauri/src/lib.rs).

The Rust code performs two HTTP probes and summarizes them into a
HealthStatus, proxies a URL-open call to the OS, and routes tray-menu
and window events to UI actions. Environment interactions (the outcome
of each HTTP send, the OS open call) are modelled as explicit inputs;
everything after those interactions is translated directly from the
source.
-/

namespace EchoVault

/-- Outcome of `client.get(url).timeout(5s).send().await` in reqwest:
either the request completed with a response (carrying an HTTP status
code), or it failed with a transport-level error. A 5-second timeout
and a connection refusal both surface as the `Err` arm in the source,
so both are constructors of the error type. -/
inductive SendError where
  | timeout
  | connectionRefused
  | otherTransport (description : String)
deriving DecidableEq

/-- Result of one `send().await`: `Except.ok status` when the request
completed (the status code of the response), `Except.error e` on any
transport failure. -/
abbrev SendOutcome := Except SendError Nat

/-- `reqwest::StatusCode::is_success`: status in the 2xx range. -/
def isSuccessStatus (status : Nat) : Bool :=
  200 ≤ status && status < 300

/-- One probe of `check_backend_health`:
`match send().await { Ok(response) => response.status().is_success(), Err(_) => false }`. -/
def probeHealthy (outcome : SendOutcome) : Bool :=
  match outcome with
  | Except.ok status => isSuccessStatus status
  | Except.error _ => false

/-- The `HealthStatus` struct returned to the UI layer. -/
structure HealthStatus where
  api : Bool
  database : Bool
  ollama : Bool
  message : String
deriving DecidableEq

/-- Message produced when the API probe fails (lib.rs line 49). -/
def backendDownMessage : String :=
  "Backend API is not running. Please start Docker services with: docker compose up -d"

/-- Message produced when the API probe succeeds but the Ollama probe
fails (lib.rs line 51). -/
def ollamaDownMessage : String :=
  "Ollama is not running. Some AI features may be unavailable."

/-- Message produced when both probes succeed (lib.rs line 53). -/
def allRunningMessage : String :=
  "All services are running"

/-- `check_backend_health`, with the outcomes of the two network sends
(API probe, Ollama probe) passed in explicitly. Mirrors lib.rs lines
23-62: each probe is folded to a boolean by `probeHealthy`, the message
is chosen by the if/else-if/else chain, `database` is set from the API
boolean, and the whole status is returned under `Ok`. -/
def check_backend_health (apiOutcome ollamaOutcome : SendOutcome) :
    Except String HealthStatus :=
  let api_healthy := probeHealthy apiOutcome
  let ollama_healthy := probeHealthy ollamaOutcome
  let message :=
    if !api_healthy then backendDownMessage
    else if !ollama_healthy then ollamaDownMessage
    else allRunningMessage
  Except.ok (HealthStatus.mk api_healthy api_healthy ollama_healthy message)

/-- Error value produced by `open::that`; `msg` is what `e.to_string()`
yields for it. -/
structure OsError where
  msg : String
deriving DecidableEq

/-- `open_external_url`, with the OS `open::that` call passed in as a
function of the URL string. Mirrors lib.rs lines 66-68:
`open::that(&url).map_err(|e| e.to_string())` - the URL is handed to
the OS call unchanged and unvalidated, and an OS error is converted to
its string form. -/
def open_external_url (url : String) (osOpen : String → Except OsError Unit) :
    Except String Unit :=
  (osOpen url).mapError OsError.msg

/-- UI/OS actions issued by the event routers. -/
inductive UiAction where
  | showWindow
  | setFocus
  | evalScript (script : String)
  | hideWindow
  | preventClose
  | exitApp (code : Int)
deriving DecidableEq

/-- Script evaluated by the new-entry actions (lib.rs line 111):
window.location.href = '/new' (apostrophes written as \x27). -/
def newEntryScript : String :=
  "window.location.href = \x27/new\x27"

/-- The tray menu-click router (lib.rs lines 100-118): dispatches on
the menu item identifier. The show/focus/eval calls are guarded by
`if let Some(window) = app.get_webview_window("main")`, modelled by the
`mainWindowExists` flag. -/
def on_menu_event (mainWindowExists : Bool) (id : String) : List UiAction :=
  match id with
  | "open" =>
      if mainWindowExists then [UiAction.showWindow, UiAction.setFocus] else []
  | "new_entry" =>
      if mainWindowExists then
        [UiAction.showWindow, UiAction.setFocus, UiAction.evalScript newEntryScript]
      else []
  | "quit" => [UiAction.exitApp 0]
  | _ => []

/-- Window events relevant to the handlers: a close request, or
anything else. -/
inductive WEvent where
  | closeRequested
  | otherEvent
deriving DecidableEq

/-- The standalone `handle_window_event` helper (lib.rs lines 139-144):
on a close request it only calls `api.prevent_close()`. -/
def handle_window_event (event : WEvent) : List UiAction :=
  match event with
  | WEvent.closeRequested => [UiAction.preventClose]
  | WEvent.otherEvent => []

/-- The window-event closure registered by `run` via `on_window_event`
(lib.rs lines 191-197): on a close request it hides the window and
calls `api.prevent_close()`; all other events fall through. -/
def run_on_window_event (event : WEvent) : List UiAction :=
  match event with
  | WEvent.closeRequested => [UiAction.hideWindow, UiAction.preventClose]
  | WEvent.otherEvent => []

/-- C1: whenever the API probe folds to false, `check_backend_health`
returns `Ok` with `api = false`, `database = false`, and the message
naming the backend-start remediation (starting the Docker backend),
regardless of the Ollama probe outcome. -/
theorem check_backend_health_api_down (a o : SendOutcome)
    (h : probeHealthy a = false) :
    check_backend_health a o =
      Except.ok (HealthStatus.mk false false (probeHealthy o) backendDownMessage) := by
  simp [check_backend_health, h]

/-- C1 witness: concrete evaluation with a refused API connection and a
healthy Ollama response (status 200). -/
theorem check_backend_health_api_down_witness :
    probeHealthy (Except.error SendError.connectionRefused) = false ∧
      check_backend_health (Except.error SendError.connectionRefused)
        (Except.ok 200) =
        Except.ok (HealthStatus.mk false false true backendDownMessage) :=
  ⟨rfl, check_backend_health_api_down (Except.error SendError.connectionRefused)
    (Except.ok 200) rfl⟩

/-- C2: when the API probe folds to true and the Ollama probe folds to
false, `check_backend_health` returns `Ok` with `api = true`,
`database = true`, `ollama = false`, and the degraded-AI-features
message. -/
theorem check_backend_health_ollama_down (a o : SendOutcome)
    (ha : probeHealthy a = true) (ho : probeHealthy o = false) :
    check_backend_health a o =
      Except.ok (HealthStatus.mk true true false ollamaDownMessage) := by
  simp [check_backend_health, ha, ho]

/-- C2 witness: concrete evaluation with a 200 API response and a timed
out Ollama request. -/
theorem check_backend_health_ollama_down_witness :
    probeHealthy (Except.ok 200) = true ∧
      probeHealthy (Except.error SendError.timeout) = false ∧
      check_backend_health (Except.ok 200) (Except.error SendError.timeout) =
        Except.ok (HealthStatus.mk true true false ollamaDownMessage) :=
  ⟨rfl, rfl, check_backend_health_ollama_down (Except.ok 200)
    (Except.error SendError.timeout) rfl rfl⟩

/-- C3: when both probes fold to true, `check_backend_health` returns
`Ok` with all three booleans true and the full-health message. -/
theorem check_backend_health_all_up (a o : SendOutcome)
    (ha : probeHealthy a = true) (ho : probeHealthy o = true) :
    check_backend_health a o =
      Except.ok (HealthStatus.mk true true true allRunningMessage) := by
  simp [check_backend_health, ha, ho]

/-- C3 witness: concrete evaluation with 200 responses from both
endpoints. -/
theorem check_backend_health_all_up_witness :
    probeHealthy (Except.ok 200) = true ∧
      check_backend_health (Except.ok 200) (Except.ok 200) =
        Except.ok (HealthStatus.mk true true true allRunningMessage) :=
  ⟨rfl, check_backend_health_all_up (Except.ok 200) (Except.ok 200) rfl rfl⟩

/-- C4: in every `HealthStatus` that `check_backend_health` returns,
the `database` field equals the `api` field: the database boolean is
derived from the API probe and never probed independently. -/
theorem check_backend_health_database_mirrors_api
    (a o : SendOutcome) (hs : HealthStatus)
    (h : check_backend_health a o = Except.ok hs) :
    hs.database = hs.api := by
  simp only [check_backend_health, Except.ok.injEq] at h
  subst h
  rfl

/-- C4 witness: concrete evaluation at one probe-outcome pair. -/
theorem check_backend_health_database_mirrors_api_witness :
    check_backend_health (Except.ok 200) (Except.error SendError.timeout) =
        Except.ok (HealthStatus.mk true true false ollamaDownMessage) ∧
      (HealthStatus.mk true true false ollamaDownMessage).database =
        (HealthStatus.mk true true false ollamaDownMessage).api :=
  ⟨rfl, check_backend_health_database_mirrors_api (Except.ok 200)
    (Except.error SendError.timeout)
    (HealthStatus.mk true true false ollamaDownMessage) rfl⟩

/-- C5: `check_backend_health` never returns an error to its caller:
for every outcome of the two network sends (completed with any status,
transport error, or timeout) it returns `Ok` with some `HealthStatus`;
probe failures become false booleans, never an `Err` value. -/
theorem check_backend_health_never_errs (a o : SendOutcome) :
    ∃ hs : HealthStatus, check_backend_health a o = Except.ok hs :=
  ⟨HealthStatus.mk (probeHealthy a) (probeHealthy a) (probeHealthy o)
      (if !probeHealthy a then backendDownMessage
       else if !probeHealthy o then ollamaDownMessage
       else allRunningMessage),
    rfl⟩

/-- C6: a probe folds to true exactly when the request completed with a
status in the success range (2xx); every transport error - a 5-second
timeout just like a connection refusal - folds to false, and so does a
completed response with a non-success status such as HTTP 500. -/
theorem probeHealthy_spec :
    (∀ s : Nat, probeHealthy (Except.ok s) = isSuccessStatus s) ∧
      (∀ e : SendError, probeHealthy (Except.error e) = false) ∧
      probeHealthy (Except.error SendError.timeout) =
        probeHealthy (Except.error SendError.connectionRefused) ∧
      probeHealthy (Except.error SendError.timeout) = false ∧
      probeHealthy (Except.ok 500) = false ∧
      probeHealthy (Except.ok 200) = true :=
  ⟨fun _ => rfl, fun _ => rfl, rfl, rfl, rfl, rfl⟩

/-- C7: the registered window-event handler reacts to a close request
by hiding the window and suppressing the default close, and no window
event ever produces an exit action; among the menu actions, only the
identifier "quit" can produce an exit action. -/
theorem close_request_never_exits :
    run_on_window_event WEvent.closeRequested =
        [UiAction.hideWindow, UiAction.preventClose] ∧
      (∀ (e : WEvent) (c : Int), UiAction.exitApp c ∉ run_on_window_event e) ∧
      (∀ (b : Bool) (id : String) (c : Int),
        UiAction.exitApp c ∈ on_menu_event b id → id = "quit") := by
  refine ⟨rfl, ?_, ?_⟩
  · intro e c
    cases e <;> simp [run_on_window_event]
  · intro b id c h
    by_cases h1 : id = "open"
    · subst h1
      cases b <;> simp [on_menu_event] at h
    · by_cases h2 : id = "new_entry"
      · subst h2
        cases b <;> simp [on_menu_event] at h
      · by_cases h3 : id = "quit"
        · exact h3
        · rw [show on_menu_event b id = [] from by
            unfold on_menu_event
            split
            · exact absurd rfl h1
            · exact absurd rfl h2
            · exact absurd rfl h3
            · rfl] at h
          exact absurd h (List.not_mem_nil _)

/-- C7 witness: the exit action with code 0 is a member of the quit
menu actions, and the theorem then forces the identifier to be
"quit". -/
theorem close_request_never_exits_witness :
    UiAction.exitApp 0 ∈ on_menu_event true "quit" ∧ "quit" = "quit" :=
  ⟨List.mem_singleton.mpr rfl,
    close_request_never_exits.2.2 true "quit" 0 (List.mem_singleton.mpr rfl)⟩

/-- C8: `open_external_url` hands the URL string to the OS open call
unvalidated; when that call fails it returns an error carrying the OS
error converted to its string form, and when it succeeds it returns
`Ok ()` with no further value. -/
theorem open_external_url_spec (url : String)
    (osOpen : String → Except OsError Unit) :
    (∀ e : OsError, osOpen url = Except.error e →
        open_external_url url osOpen = Except.error e.msg) ∧
      (osOpen url = Except.ok () →
        open_external_url url osOpen = Except.ok ()) := by
  constructor
  · intro e h
    simp [open_external_url, h, Except.mapError]
  · intro h
    simp [open_external_url, h, Except.mapError]

/-- C8 witness: a malformed URL whose OS open call fails yields the
error string; the same URL with a succeeding OS call yields `Ok ()`. -/
theorem open_external_url_spec_witness :
    ((fun _ : String => Except.error (OsError.mk "exec failed")) "not a url"
        = (Except.error (OsError.mk "exec failed") : Except OsError Unit)) ∧
      open_external_url "not a url"
        (fun _ => Except.error (OsError.mk "exec failed")) =
        Except.error "exec failed" :=
  ⟨rfl, (open_external_url_spec "not a url"
    (fun _ => Except.error (OsError.mk "exec failed"))).1
      (OsError.mk "exec failed") rfl⟩

/-- C9: with the main window present, the tray menu router maps "open"
to reveal-and-focus, "new_entry" to reveal-and-focus followed by the
navigation script to the new-entry view, "quit" (window present or
not) to terminating the process with exit code 0, and every other
identifier to no action. -/
theorem on_menu_event_spec :
    on_menu_event true "open" = [UiAction.showWindow, UiAction.setFocus] ∧
      on_menu_event true "new_entry" =
        [UiAction.showWindow, UiAction.setFocus,
          UiAction.evalScript newEntryScript] ∧
      (∀ b : Bool, on_menu_event b "quit" = [UiAction.exitApp 0]) ∧
      (∀ (b : Bool) (id : String), id ≠ "open" → id ≠ "new_entry" →
        id ≠ "quit" → on_menu_event b id = []) := by
  refine ⟨rfl, rfl, ?_, ?_⟩
  · intro b
    cases b <;> rfl
  · intro b id h1 h2 h3
    unfold on_menu_event
    split
    · exact absurd rfl h1
    · exact absurd rfl h2
    · exact absurd rfl h3
    · rfl

/-- C9 witness: the disabled separator identifier "sep" produces no
action. -/
theorem on_menu_event_spec_witness :
    ("sep" ≠ "open" ∧ "sep" ≠ "new_entry" ∧ "sep" ≠ "quit") ∧
      on_menu_event true "sep" = [] :=
  ⟨⟨by decide, by decide, by decide⟩,
    on_menu_event_spec.2.2.2 true "sep" (by decide) (by decide) (by decide)⟩

/-- C10: `check_backend_health` is deterministic in the probe
booleans: two invocations whose probe outcomes fold to the same pair
of booleans produce identical `HealthStatus` values, message string
included; nothing else influences the result. -/
theorem check_backend_health_deterministic
    (a₁ o₁ a₂ o₂ : SendOutcome)
    (ha : probeHealthy a₁ = probeHealthy a₂)
    (ho : probeHealthy o₁ = probeHealthy o₂) :
    check_backend_health a₁ o₁ = check_backend_health a₂ o₂ := by
  simp [check_backend_health, ha, ho]

/-- C10 witness: a timeout and a connection refusal on the API probe,
with different success statuses on the Ollama probe, yield identical
results. -/
theorem check_backend_health_deterministic_witness :
    probeHealthy (Except.error SendError.timeout) =
        probeHealthy (Except.error SendError.connectionRefused) ∧
      probeHealthy (Except.ok 200) = probeHealthy (Except.ok 204) ∧
      check_backend_health (Except.error SendError.timeout) (Except.ok 200) =
        check_backend_health (Except.error SendError.connectionRefused)
          (Except.ok 204) :=
  ⟨rfl, rfl, check_backend_health_deterministic
    (Except.error SendError.timeout) (Except.ok 200)
    (Except.error SendError.connectionRefused) (Except.ok 204) rfl rfl⟩

end EchoVault
